import Mathlib

/-!
Shallow embedding of the Sheet-Metal-Client-Hub cost engine: the function
`calculate_cost` of `src/calculator.py`, the functions `calculate_and_save`
and `generate_quote` of `src/logic.py`, and the work-centre collection step
of `src/gui.py`.

Python floats are modelled as rationals, the dict-shaped `part_data` as a
structure whose numeric fields record presence and parseability, raised
exceptions as `Except` errors, and the rate dict and part registry as
association lists.  The monetary rounding described by the specification
is defined separately (`spec_round2`) for comparison with the code, which
never rounds.
-/

namespace SheetMetal

/-- A Python value sitting in a numeric field of the `part_data` dict:
either a value that `float()` or `int()` accepts, or one that makes the
conversion raise. -/
inductive PyNum where
  | num (q : ℚ)
  | nonNumeric
deriving DecidableEq, Repr

/-- A Python exception class relevant to `calculate_cost`. -/
inductive PyErr where
  | valueError
  | attributeError
deriving DecidableEq, Repr

/-- Rate table: the Python dict from rate-key strings to numeric rates. -/
abbrev RateTable := List (String × ℚ)

/-- Python `str.lower()` as used on material and fastener names (ASCII),
defined by structural recursion over the character list so that it
evaluates inside proofs. -/
def strLower (s : String) : String :=
  ⟨s.data.map Char.toLower⟩

/-- Python `key in rates` combined with `rates[key]` on the rate dict. -/
def lookupRate (rates : RateTable) (key : String) : Option ℚ :=
  List.lookup key rates

/-- The conversion `float(part_data.get(field, dflt))`: an absent field
yields the default, a non-numeric present value raises `ValueError`. -/
def pyFloat (v : Option PyNum) (dflt : ℚ) : Except PyErr ℚ :=
  match v with
  | none => .ok dflt
  | some (.num q) => .ok q
  | some .nonNumeric => .error .valueError

/-- Truncation toward zero, as Python `int()` applied to a float. -/
def ratTrunc (q : ℚ) : ℤ :=
  if 0 ≤ q then ⌊q⌋ else ⌈q⌉

/-- The conversion `int(part_data.get('quantity', 1))`. -/
def pyInt (v : Option PyNum) (dflt : ℤ) : Except PyErr ℤ :=
  match v with
  | none => .ok dflt
  | some (.num q) => .ok (ratTrunc q)
  | some .nonNumeric => .error .valueError

/-- The `part_data` dict consumed by `calculate_cost` (calculator.py).
A work-centre row is a triple of name, quantity and sub-option; a fastener
row is a pair of fastener type and count. -/
structure PartData where
  part_type : Option String := none
  material : Option String := none
  thickness : Option PyNum := none
  length : Option PyNum := none
  width : Option PyNum := none
  quantity : Option PyNum := none
  work_centres : List (String × ℚ × String) := []
  catalogue_cost : Option PyNum := none
  fastener_types_and_counts : List (String × ℚ) := []
deriving Repr

/-- The `rate_key` chosen by the if/elif chain of calculator.py lines 48-68;
`none` models the Python variable `rate_key` remaining `None`. -/
def wcRateKey (work_centre sub_option : String) : Option String :=
  if work_centre = "Cutting" then some "cutting_rate_per_mm"
  else if work_centre = "Bending" then some "bending_rate_per_bend"
  else if work_centre = "Welding" then
    some (if sub_option = "MIG" then "mig_welding_rate_per_mm"
          else "tig_welding_rate_per_mm")
  else if work_centre = "Assembly" then some "assembly_rate_per_component"
  else if work_centre = "Finishing" then some "finishing_rate_per_mm²"
  else if work_centre = "Drilling" then some "drilling_rate_per_hole"
  else if work_centre = "Punching" then some "punching_rate_per_punch"
  else if work_centre = "Grinding" then some "grinding_rate_per_mm²"
  else if work_centre = "Coating" then
    some (if sub_option = "Painting" then "painting_rate_per_mm²"
          else "coating_rate_per_mm²")
  else if work_centre = "Inspection" then some "inspection_rate_per_unit"
  else none

/-- The WorkCentre loop of calculator.py lines 47-76: it accumulates
`rates[rate_key] * qty * quantity`; `none` models the early `return 0.0`
taken when `rate_key` is `None` or absent from `rates`. -/
def workCentresCost (rates : RateTable) (quantity : ℚ) :
    List (String × ℚ × String) → Option ℚ
  | [] => some 0
  | (wc, qty, sub) :: rest =>
    match wcRateKey wc sub with
    | none => none
    | some key =>
      match lookupRate rates key with
      | none => none
      | some r =>
        (workCentresCost rates quantity rest).map (fun c => r * qty * quantity + c)

/-- The fastener loop of calculator.py lines 79-87; `none` again models the
early `return 0.0` on a missing rate key. -/
def fastenersCost (rates : RateTable) (quantity : ℚ) :
    List (String × ℚ) → Option ℚ
  | [] => some 0
  | (ftype, count) :: rest =>
    match lookupRate rates (strLower ftype ++ "_rate_per_unit") with
    | none => none
    | some r =>
      (fastenersCost rates quantity rest).map (fun c => r * count * quantity + c)

/-- WorkCentre, fastener and catalogue accumulation shared by both material
branches of `calculate_cost` (calculator.py lines 46-94), starting from the
already-accumulated material cost `acc`; the value 0 is the early
`return 0.0` on a missing work-centre or fastener rate. -/
def tailCost (pd : PartData) (rates : RateTable)
    (quantity catalogue_cost acc : ℚ) : ℚ :=
  match workCentresCost rates quantity pd.work_centres with
  | none => 0
  | some wcCost =>
    match fastenersCost rates quantity pd.fastener_types_and_counts with
    | none => 0
    | some fCost => acc + wcCost + fCost + catalogue_cost * quantity

/-- The field conversions at calculator.py lines 28-33; any failing
conversion raises `ValueError` before the cost accumulation starts. -/
def convertFields (pd : PartData) : Except PyErr (ℚ × ℚ × ℚ × ℤ × ℚ) :=
  match pyFloat pd.thickness 0, pyFloat pd.length 0, pyFloat pd.width 0,
      pyInt pd.quantity 1, pyFloat pd.catalogue_cost 0 with
  | .ok t, .ok l, .ok w, .ok qi, .ok c => .ok (t, l, w, qi, c)
  | _, _, _, _, _ => .error .valueError

/-- The body of `calculate_cost` inside its `try:` block: field conversions,
material cost, both loops and the catalogue cost.  `.error` models a raised
exception reaching the `except` handler, `.ok` a normal `return`. -/
def calculate_cost_checked (pd : PartData) (rates : RateTable) :
    Except PyErr ℚ :=
  match convertFields pd with
  | .error e => .error e
  | .ok (thickness, length, width, qi, catalogue_cost) =>
    let quantity : ℚ := (qi : ℚ)
    if pd.part_type = some "Single Part" ∧ pd.material ≠ some "N/A" then
      match pd.material with
      | none => .error .attributeError
      | some m =>
        match lookupRate rates (strLower m) with
        | none => .ok 0
        | some r =>
          .ok (tailCost pd rates quantity catalogue_cost
            (r * thickness * length * width * quantity))
    else
      .ok (tailCost pd rates quantity catalogue_cost 0)

/-- `calculate_cost` (calculator.py lines 12-97): the `try/except` wrapper
that returns `0.0` whenever the body raises. -/
def calculate_cost (pd : PartData) (rates : RateTable) : ℚ :=
  match calculate_cost_checked pd rates with
  | .ok v => v
  | .error _ => 0

/-- Written from the specification text, for comparison with the code:
2-decimal half-up monetary rounding, the `round(cost, 2)` of the spec. -/
def spec_round2 (q : ℚ) : ℚ :=
  (⌊q * 100 + 1 / 2⌋ : ℚ) / 100

/-- The ten work-centre names enumerated by the if/elif chain. -/
def opNames : List String :=
  ["Cutting", "Bending", "Welding", "Assembly", "Finishing",
   "Drilling", "Punching", "Grinding", "Coating", "Inspection"]

/-- The rate actually applied to a work-centre row (0 when absent). -/
def keyRate (rates : RateTable) (wc sub : String) : ℚ :=
  ((wcRateKey wc sub).bind (lookupRate rates)).getD 0

/-- The rate actually applied to a fastener row (0 when absent). -/
def fastenerRate (rates : RateTable) (ftype : String) : ℚ :=
  (lookupRate rates (strLower ftype ++ "_rate_per_unit")).getD 0

/-- An element of `specs['sub_parts']` in logic.py.  The two unpacking
loops there expect pairs (line 46) and triples (lines 66 and 75), so the
arity of each element is part of the data, and unpacking at the wrong
arity raises `ValueError` exactly as in Python. -/
inductive SubPartEntry where
  | pair (pid : String) (q : ℚ)
  | triple (pid : String) (desc : String) (count : ℚ)
deriving DecidableEq, Repr

/-- Tuple unpacking `sub_part, _ = entry` (logic.py line 46). -/
def unpack2 : SubPartEntry → Except String (String × ℚ)
  | .pair a b => .ok (a, b)
  | .triple _ _ _ => .error "too many values to unpack (expected 2)"

/-- Tuple unpacking `item_id, _, count = entry` (logic.py lines 66 and 75). -/
def unpack3 : SubPartEntry → Except String (String × String × ℚ)
  | .triple a b c => .ok (a, b, c)
  | .pair _ _ => .error "not enough values to unpack (expected 3, got 2)"

/-- The `specs` sub-dict of the `part_specs` argument of
`calculate_and_save` (logic.py). -/
structure Specs where
  material : String
  thickness : ℚ
  length : ℚ
  width : ℚ
  quantity : ℚ
  sub_parts : List SubPartEntry := []
  top_level_assembly : String := "N/A"
  weldment_indicator : String := "No"
  fastener_types_and_counts : List (String × ℚ) := []
deriving Repr

/-- The `part_specs` argument of `calculate_and_save` (logic.py). -/
structure PartSpecs where
  part_type : String
  part_id : String
  revision : String
  specs : Specs
  work_centres : List (String × ℚ × String)
deriving Repr

/-- logic.py line 57: `part_id.startswith(pfx)` together with the regex
matching `pfx` followed by 5 to 15 ASCII alphanumeric characters and the
end of the string, expressed over the character lists. -/
def validPartId (pfx part_id : String) : Bool :=
  part_id.data.take pfx.data.length == pfx.data &&
    (let rest := part_id.data.drop pfx.data.length
     decide (5 ≤ rest.length) && decide (rest.length ≤ 15) &&
       rest.all (fun c => c.isAlpha || c.isDigit))

/-- logic.py lines 44-49: unpack each sub-part as a pair and require its id
to be among the already-saved parts loaded from `output.txt`. -/
def checkSubParts (existing : List String) :
    List SubPartEntry → Except String Unit
  | [] => .ok ()
  | e :: rest =>
    match unpack2 e with
    | .error msg => .error msg
    | .ok (sp, _) =>
      if sp ∈ existing then checkSubParts existing rest
      else .error ("Sub-part " ++ sp ++ " does not exist in the system")

/-- logic.py lines 65-69: unpack each sub-part as a triple and reject a
count above 100. -/
def checkFastenerCounts : List SubPartEntry → Except String Unit
  | [] => .ok ()
  | e :: rest =>
    match unpack3 e with
    | .error msg => .error msg
    | .ok (item_id, _, count) =>
      if 100 < count then
        .error ("Fastener count for " ++ item_id ++ " must be 0-100")
      else checkFastenerCounts rest

/-- The first catalogue price matching `item_id` (the inner loop with its
`break`, logic.py lines 76-80); 0 when no catalogue line matches. -/
def cataloguePrice (catalogue : List (String × String × ℚ))
    (item_id : String) : ℚ :=
  match catalogue.find? (fun c => c.1 == item_id) with
  | some c => c.2.2
  | none => 0

/-- logic.py lines 71-80: catalogue cost accumulated over the sub-part
triples of a single part. -/
def catalogueCostOf (catalogue : List (String × String × ℚ)) :
    List SubPartEntry → Except String ℚ
  | [] => .ok 0
  | e :: rest =>
    match unpack3 e with
    | .error msg => .error msg
    | .ok (item_id, _, count) =>
      match catalogueCostOf catalogue rest with
      | .error msg => .error msg
      | .ok c => .ok (cataloguePrice catalogue item_id * count + c)

/-- The dict at logic.py line 37 sending a normalized material name to its
rate key; only consulted after membership in the three names is checked. -/
def materialForRates (normalized : String) : String :=
  if normalized = "mild steel" then "mild_steel_rate"
  else if normalized = "aluminium" then "aluminium_rate"
  else "stainless_steel_rate"

/-- One `(value, min, max, message)` entry of the `validations` list of
logic.py; a `none` upper bound models `float('inf')`. -/
structure Validation where
  value : ℚ
  lo : ℚ
  hi : Option ℚ
  msg : String

/-- The range test `min_val <= value <= max_val` of logic.py line 52. -/
def okRange (v : Validation) : Bool :=
  decide (v.lo ≤ v.value) &&
    (match v.hi with
     | none => true
     | some h => decide (v.value ≤ h))

/-- The validation loop of logic.py lines 51-54. -/
def runValidations : List Validation → Except String Unit
  | [] => .ok ()
  | v :: rest =>
    if okRange v then runValidations rest else .error v.msg

/-- logic.py lines 26-49: build the validations list and resolve the
material rate key (Single Part branch), or check the sub-parts of the
assembly branch against the saved parts. -/
def branchCheck (ps : PartSpecs) (existing : List String) :
    Except String (List Validation × String) :=
  if ps.part_type = "Single Part" then
    let validations : List Validation :=
      [⟨ps.specs.length, 50, some 3000,
        "Lay-Flat length must be between 50 and 3000 mm"⟩,
       ⟨ps.specs.width, 50, some 1500,
        "Lay-Flat width must be between 50 and 1500 mm"⟩,
       ⟨ps.specs.thickness, 1, some 3,
        "Thickness must be between 1.0 and 3.0 mm"⟩,
       ⟨ps.specs.quantity, 1, none, "Quantity must be a positive integer"⟩]
    let normalized := strLower ps.specs.material
    if normalized = "mild steel" ∨ normalized = "aluminium" ∨
        normalized = "stainless steel" then
      .ok (validations, materialForRates normalized)
    else
      .error "Material must be 'Mild Steel', 'Aluminium', or 'Stainless Steel'"
  else
    let validations : List Validation :=
      [⟨ps.specs.quantity, 1, none, "Quantity must be a positive integer"⟩]
    if ps.specs.sub_parts = [] then
      .error "At least one sub-part must be selected for an assembly"
    else
      match checkSubParts existing ps.specs.sub_parts with
      | .error msg => .error msg
      | .ok _ => .ok (validations, "N/A")

/-- The `part_specs_full` dict built at logic.py lines 82-89, in the shape
consumed by `calculate_cost`. -/
def buildFullSpecs (ps : PartSpecs) (material_for_rates : String)
    (catalogue_cost : ℚ) : PartData :=
  { part_type := some ps.part_type
    material := some material_for_rates
    thickness := some (.num ps.specs.thickness)
    length := some (.num ps.specs.length)
    width := some (.num ps.specs.width)
    quantity := some (.num ps.specs.quantity)
    work_centres := ps.work_centres
    catalogue_cost := some (.num catalogue_cost)
    fastener_types_and_counts := ps.specs.fastener_types_and_counts }

/-- `calculate_and_save` (logic.py lines 10-109) with its file
collaborators made explicit: `existing` is the result of
`load_existing_parts()` and `catalogue` of `load_parts_catalogue()`.
A raised `ValueError` is `.error` carrying its message; success is
`.ok total_cost`.  The `save_output` call, logging and message boxes are
presentation side effects outside the computed result. -/
def calculate_and_save (ps : PartSpecs) (rates : RateTable)
    (existing : List String) (catalogue : List (String × String × ℚ)) :
    Except String ℚ :=
  if ps.part_id = "" ∨ ps.revision = "" then
    .error "Part ID and Revision are required"
  else
    match branchCheck ps existing with
    | .error msg => .error msg
    | .ok (validations, material_for_rates) =>
      match runValidations validations with
      | .error msg => .error msg
      | .ok _ =>
        let pfx := if ps.part_type = "Single Part" then "PART-" else "ASSY-"
        if ¬ validPartId pfx ps.part_id then
          .error ("Part ID must be " ++ pfx ++ "[5-15 alphanumeric]")
        else if ps.work_centres = [] then
          .error "At least one WorkCentre operation must be selected"
        else
          match (if ps.specs.sub_parts ≠ [] then
                   checkFastenerCounts ps.specs.sub_parts
                 else .ok ()) with
          | .error msg => .error msg
          | .ok _ =>
            match (if ps.part_type = "Single Part" then
                     catalogueCostOf catalogue ps.specs.sub_parts
                   else .ok 0) with
            | .error msg => .error msg
            | .ok catalogue_cost =>
              if rates = [] then
                .error "Failed to load rates from data/rates.json"
              else
                let total :=
                  calculate_cost
                    (buildFullSpecs ps material_for_rates catalogue_cost) rates
                if total = 0 then
                  .error "Cost calculation failed, check inputs or rates"
                else .ok total

/-- The subtotal loop of `generate_quote` (logic.py lines 135-145):
`load_part_cost` reads the first matching saved part, modelled by the
association list `registry`; a missing cost raises. -/
def sumParts (registry : List (String × ℚ)) :
    List (String × ℚ) → Except String ℚ
  | [] => .ok 0
  | (part_id, quantity) :: rest =>
    match List.lookup part_id registry with
    | none => .error ("Cost not found for part " ++ part_id)
    | some unit_cost =>
      match sumParts registry rest with
      | .error msg => .error msg
      | .ok c => .ok (unit_cost * quantity + c)

/-- `generate_quote` (logic.py lines 111-152): the validation order and the
final `total_cost * (1 + profit_margin / 100)`; a raised `ValueError` is
`.error` with its message. -/
def generate_quote (customer_name : String) (profit_margin : ℚ)
    (added_parts : List (String × ℚ)) (registry : List (String × ℚ)) :
    Except String ℚ :=
  if customer_name = "" then .error "Customer name cannot be empty"
  else if profit_margin < 0 then .error "Profit margin cannot be negative"
  else if added_parts = [] then .error "No parts added to quote"
  else
    match sumParts registry added_parts with
    | .error msg => .error msg
    | .ok total_cost => .ok (total_cost * (1 + profit_margin / 100))

/-- The work-centre collection loop of gui.py lines 878-915 over the
selected rows `(work_centre, qty, sub_option)`; row `i` is reported as
Operation `(i + 1) * 10`, and `qty = 0` models the dropdown default
string `"0"`.  The first offending row aborts the submission. -/
def collectWorkCentres : Nat → List (String × ℚ × String) →
    Except String (List (String × ℚ × String))
  | _, [] => .ok []
  | i, (wc, qty, sub) :: rest =>
    if wc = "" then collectWorkCentres (i + 1) rest
    else if qty = 0 then
      .error ("Quantity for " ++ wc ++ " in Operation " ++
        toString ((i + 1) * 10) ++ " must be selected")
    else if wc = "Welding" ∧ sub = "None" then
      .error ("Weld type must be selected for Welding in Operation " ++
        toString ((i + 1) * 10))
    else if wc = "Coating" ∧ sub = "None" then
      .error ("Surface treatment type must be selected for Coating in Operation " ++
        toString ((i + 1) * 10))
    else
      match collectWorkCentres (i + 1) rest with
      | .error msg => .error msg
      | .ok l => .ok ((wc, qty, sub) :: l)

/-! ### Helper lemmas about the loops of `calculate_cost` -/

theorem lookupRate_nonneg :
    ∀ (rates : RateTable), (∀ p ∈ rates, 0 ≤ p.2) →
      ∀ k r, lookupRate rates k = some r → 0 ≤ r
  | [], _, _, _, hk => by simp [lookupRate, List.lookup] at hk
  | (a, b) :: t, h, k, r, hk => by
    simp only [lookupRate, List.lookup] at hk
    split at hk
    · cases hk
      exact h (a, b) (List.mem_cons_self _ _)
    · exact lookupRate_nonneg t (fun p hp => h p (List.mem_cons_of_mem _ hp)) k r hk

theorem wcRateKey_eq_none (wc sub : String) (h : wc ∉ opNames) :
    wcRateKey wc sub = none := by
  simp only [opNames, List.mem_cons, List.not_mem_nil, or_false, not_or] at h
  obtain ⟨h1, h2, h3, h4, h5, h6, h7, h8, h9, h10⟩ := h
  simp [wcRateKey, h1, h2, h3, h4, h5, h6, h7, h8, h9, h10]

theorem workCentresCost_eq_none (rates : RateTable) (Q : ℚ) :
    ∀ (L : List (String × ℚ × String)) (wc : String) (q : ℚ) (sub : String),
      (wc, q, sub) ∈ L → wcRateKey wc sub = none →
      workCentresCost rates Q L = none
  | [], _, _, _, hm, _ => absurd hm (List.not_mem_nil _)
  | (a, b, c) :: rest, wc, q, sub, hm, hk => by
    rcases List.mem_cons.mp hm with heq | hmem
    · simp only [Prod.mk.injEq] at heq
      obtain ⟨rfl, rfl, rfl⟩ := heq
      simp [workCentresCost, hk]
    · simp only [workCentresCost]
      cases hka : wcRateKey a c with
      | none => rfl
      | some key =>
        dsimp only
        cases hr : lookupRate rates key with
        | none => rfl
        | some r =>
          dsimp only
          rw [workCentresCost_eq_none rates Q rest wc q sub hmem hk]
          rfl

theorem workCentresCost_eq_sum (rates : RateTable) (Q : ℚ) :
    ∀ L : List (String × ℚ × String),
      (∀ e ∈ L, ((wcRateKey e.1 e.2.2).bind (lookupRate rates)).isSome) →
      workCentresCost rates Q L =
        some ((L.map fun e => keyRate rates e.1 e.2.2 * e.2.1 * Q).sum)
  | [], _ => by simp [workCentresCost]
  | (a, b, c) :: rest, h => by
    have h1 := h (a, b, c) (List.mem_cons_self _ _)
    simp only [workCentresCost]
    cases hka : wcRateKey a c with
    | none => rw [hka] at h1; simp at h1
    | some key =>
      cases hr : lookupRate rates key with
      | none => rw [hka] at h1; simp [hr] at h1
      | some r =>
        rw [workCentresCost_eq_sum rates Q rest
          (fun e he => h e (List.mem_cons_of_mem _ he))]
        simp [keyRate, hka, hr]

theorem fastenersCost_eq_sum (rates : RateTable) (Q : ℚ) :
    ∀ L : List (String × ℚ),
      (∀ e ∈ L, (lookupRate rates (strLower e.1 ++ "_rate_per_unit")).isSome) →
      fastenersCost rates Q L =
        some ((L.map fun e => fastenerRate rates e.1 * e.2 * Q).sum)
  | [], _ => by simp [fastenersCost]
  | (a, b) :: rest, h => by
    have h1 := h (a, b) (List.mem_cons_self _ _)
    simp only [fastenersCost]
    cases hr : lookupRate rates (strLower a ++ "_rate_per_unit") with
    | none => rw [hr] at h1; simp at h1
    | some r =>
      rw [fastenersCost_eq_sum rates Q rest
        (fun e he => h e (List.mem_cons_of_mem _ he))]
      simp [fastenerRate, hr]

/-- Both loop results fail together, or both succeed with ordered values. -/
def OptLe : Option ℚ → Option ℚ → Prop
  | none, none => True
  | some a, some b => a ≤ b
  | _, _ => False

theorem workCentresCost_mono (rates : RateTable) (Q : ℚ) (hQ : 0 ≤ Q)
    (hrates : ∀ p ∈ rates, 0 ≤ p.2) (wc sub : String) {q q₂ : ℚ}
    (hq : q ≤ q₂) :
    ∀ L1 L2, OptLe (workCentresCost rates Q (L1 ++ (wc, q, sub) :: L2))
      (workCentresCost rates Q (L1 ++ (wc, q₂, sub) :: L2))
  | [], L2 => by
    simp only [List.nil_append, workCentresCost]
    cases hka : wcRateKey wc sub with
    | none => trivial
    | some key =>
      dsimp only
      cases hr : lookupRate rates key with
      | none => trivial
      | some r =>
        dsimp only
        cases hrest : workCentresCost rates Q L2 with
        | none => trivial
        | some c =>
          show r * q * Q + c ≤ r * q₂ * Q + c
          have hr0 : 0 ≤ r := lookupRate_nonneg rates hrates key r hr
          have hmul : r * q * Q ≤ r * q₂ * Q :=
            mul_le_mul_of_nonneg_right (mul_le_mul_of_nonneg_left hq hr0) hQ
          exact add_le_add_right hmul c
  | (a, b, c) :: L1, L2 => by
    simp only [List.cons_append, workCentresCost]
    cases hka : wcRateKey a c with
    | none => trivial
    | some key =>
      dsimp only
      cases hr : lookupRate rates key with
      | none => trivial
      | some r =>
        dsimp only
        have ih := workCentresCost_mono rates Q hQ hrates wc sub hq L1 L2
        cases hx : workCentresCost rates Q (L1 ++ (wc, q, sub) :: L2) with
        | none =>
          cases hy : workCentresCost rates Q (L1 ++ (wc, q₂, sub) :: L2) with
          | none => trivial
          | some y => rw [hx, hy] at ih; exact absurd ih (by simp [OptLe])
        | some x =>
          cases hy : workCentresCost rates Q (L1 ++ (wc, q₂, sub) :: L2) with
          | none => rw [hx, hy] at ih; exact absurd ih (by simp [OptLe])
          | some y =>
            rw [hx, hy] at ih
            have hxy : x ≤ y := ih
            show r * b * Q + x ≤ r * b * Q + y
            exact add_le_add_left hxy _

theorem tailCost_le (pd pd₂ : PartData) (rates : RateTable) (Q cat acc : ℚ)
    (hfast : pd₂.fastener_types_and_counts = pd.fastener_types_and_counts)
    (hle : OptLe (workCentresCost rates Q pd.work_centres)
      (workCentresCost rates Q pd₂.work_centres)) :
    tailCost pd rates Q cat acc ≤ tailCost pd₂ rates Q cat acc := by
  unfold tailCost
  rw [hfast]
  cases hx : workCentresCost rates Q pd.work_centres with
  | none =>
    cases hy : workCentresCost rates Q pd₂.work_centres with
    | none => exact le_refl 0
    | some y => rw [hx, hy] at hle; exact absurd hle (by simp [OptLe])
  | some x =>
    cases hy : workCentresCost rates Q pd₂.work_centres with
    | none => rw [hx, hy] at hle; exact absurd hle (by simp [OptLe])
    | some y =>
      rw [hx, hy] at hle
      have hxy : x ≤ y := hle
      cases hf : fastenersCost rates Q pd.fastener_types_and_counts with
      | none => exact le_refl 0
      | some f =>
        show acc + x + f + cat * Q ≤ acc + y + f + cat * Q
        linarith

/-- Reduction of `calculate_cost` on a single part with a present material
rate: the cost is the tail accumulation started from the material cost
`rate * thickness * length * width * quantity`. -/
theorem calculate_cost_single (pd : PartData) (rates : RateTable)
    (t l w c : ℚ) (qi : ℤ) (m : String) (mr : ℚ)
    (hconv : convertFields pd = .ok (t, l, w, qi, c))
    (hpt : pd.part_type = some "Single Part")
    (hm : pd.material = some m) (hna : m ≠ "N/A")
    (hmr : lookupRate rates (strLower m) = some mr) :
    calculate_cost pd rates =
      tailCost pd rates (qi : ℚ) c (mr * t * l * w * (qi : ℚ)) := by
  unfold calculate_cost calculate_cost_checked
  rw [hconv]
  dsimp only
  rw [if_pos ⟨hpt, by rw [hm]; simp [hna]⟩]
  rw [hm]
  dsimp only
  rw [hmr]

/-- Reduction of the checked body when the material block is skipped: the
computation returns normally with the tail accumulation. -/
theorem checked_skip_material (pd : PartData) (rates : RateTable)
    (t l w c : ℚ) (qi : ℤ)
    (hconv : convertFields pd = .ok (t, l, w, qi, c))
    (hcond : ¬ (pd.part_type = some "Single Part" ∧ pd.material ≠ some "N/A")) :
    calculate_cost_checked pd rates = .ok (tailCost pd rates (qi : ℚ) c 0) := by
  unfold calculate_cost_checked
  rw [hconv]
  dsimp only
  rw [if_neg hcond]

/-- Reduction of `calculate_cost` when the material block is skipped (not a
single part, or material is the placeholder "N/A"). -/
theorem calculate_cost_skip_material (pd : PartData) (rates : RateTable)
    (t l w c : ℚ) (qi : ℤ)
    (hconv : convertFields pd = .ok (t, l, w, qi, c))
    (hcond : ¬ (pd.part_type = some "Single Part" ∧ pd.material ≠ some "N/A")) :
    calculate_cost pd rates = tailCost pd rates (qi : ℚ) c 0 := by
  unfold calculate_cost calculate_cost_checked
  rw [hconv]
  dsimp only
  rw [if_neg hcond]

/-- When every work-centre key and fastener key resolves in the rate table,
the tail accumulation is the exact sum of its terms. -/
theorem tailCost_eq_sum (pd : PartData) (rates : RateTable) (Q cat acc : ℚ)
    (hops : ∀ e ∈ pd.work_centres,
      ((wcRateKey e.1 e.2.2).bind (lookupRate rates)).isSome)
    (hfs : ∀ e ∈ pd.fastener_types_and_counts,
      (lookupRate rates (strLower e.1 ++ "_rate_per_unit")).isSome) :
    tailCost pd rates Q cat acc =
      acc + ((pd.work_centres.map fun e => keyRate rates e.1 e.2.2 * e.2.1 * Q).sum) +
        ((pd.fastener_types_and_counts.map fun e =>
          fastenerRate rates e.1 * e.2 * Q).sum) + cat * Q := by
  unfold tailCost
  rw [workCentresCost_eq_sum rates Q pd.work_centres hops,
    fastenersCost_eq_sum rates Q pd.fastener_types_and_counts hfs]

/-! ### Concrete fixtures used by the claim theorems -/

/-- A Mild Steel single part exactly as `calculate_and_save` hands it to
`calculate_cost`: the material field already holds the mapped rate key. -/
def pdMildSteel : PartData :=
  { part_type := some "Single Part", material := some "mild_steel_rate",
    thickness := some (.num 1), length := some (.num 1000),
    width := some (.num 500), quantity := some (.num 1),
    work_centres := [("Cutting", 100, "None")],
    catalogue_cost := some (.num 0) }

/-- A non-empty rate table lacking the key `mild_steel_rate`. -/
def ratesNoMildSteel : RateTable := [("cutting_rate_per_mm", 3 / 100)]

/-- The corresponding operator-level specification of the same part. -/
def psMildSteel : PartSpecs :=
  { part_type := "Single Part", part_id := "PART-12345", revision := "A",
    specs := { material := "Mild Steel", thickness := 1, length := 1000,
               width := 500, quantity := 1 },
    work_centres := [("Cutting", 100, "None")] }

/-! ### C1: missing material rate -/

/-- C1 counterexample: with `mild_steel_rate` absent from the rate table,
`calculate_cost` on a Mild Steel part does not fail with a MissingRate
error: its body returns normally, and the returned value is the numeric 0. -/
theorem C1_counterexample :
    calculate_cost_checked pdMildSteel ratesNoMildSteel = .ok 0 ∧
    calculate_cost pdMildSteel ratesNoMildSteel = 0 := by
  constructor <;> rfl

/-- C1 (amended): on a valid Mild Steel part whose rate table lacks
`mild_steel_rate`, `calculate_cost` returns the sentinel 0.0 (not an
error), and its caller `calculate_and_save` turns that zero into the
raised error "Cost calculation failed, check inputs or rates" — so the
pipeline aborts rather than silently quoting a zero cost. -/
theorem C1_missing_rate_aborts (ps : PartSpecs) (rates : RateTable)
    (existing : List String) (catalogue : List (String × String × ℚ))
    (hty : ps.part_type = "Single Part")
    (hid : ps.part_id ≠ "") (hrev : ps.revision ≠ "")
    (hmat : strLower ps.specs.material = "mild steel")
    (hlen : 50 ≤ ps.specs.length ∧ ps.specs.length ≤ 3000)
    (hwid : 50 ≤ ps.specs.width ∧ ps.specs.width ≤ 1500)
    (hthk : 1 ≤ ps.specs.thickness ∧ ps.specs.thickness ≤ 3)
    (hqty : 1 ≤ ps.specs.quantity)
    (hpid : validPartId "PART-" ps.part_id = true)
    (hwc : ps.work_centres ≠ [])
    (hsub : ps.specs.sub_parts = [])
    (hrates : rates ≠ [])
    (hmiss : lookupRate rates "mild_steel_rate" = none) :
    calculate_cost (buildFullSpecs ps "mild_steel_rate" 0) rates = 0 ∧
    calculate_and_save ps rates existing catalogue =
      .error "Cost calculation failed, check inputs or rates" := by
  have htl : strLower "mild_steel_rate" = "mild_steel_rate" := rfl
  have hcost : calculate_cost (buildFullSpecs ps "mild_steel_rate" 0) rates = 0 := by
    unfold calculate_cost calculate_cost_checked
    have hconv : convertFields (buildFullSpecs ps "mild_steel_rate" 0) =
        .ok (ps.specs.thickness, ps.specs.length, ps.specs.width,
          ratTrunc ps.specs.quantity, 0) := rfl
    rw [hconv]
    dsimp only
    rw [if_pos ⟨show some ps.part_type = some "Single Part" by rw [hty],
      show some "mild_steel_rate" ≠ some "N/A" by simp⟩]
    dsimp only [buildFullSpecs]
    rw [htl, hmiss]
  refine ⟨hcost, ?_⟩
  have hbr : branchCheck ps existing =
      .ok ([⟨ps.specs.length, 50, some 3000,
             "Lay-Flat length must be between 50 and 3000 mm"⟩,
            ⟨ps.specs.width, 50, some 1500,
             "Lay-Flat width must be between 50 and 1500 mm"⟩,
            ⟨ps.specs.thickness, 1, some 3,
             "Thickness must be between 1.0 and 3.0 mm"⟩,
            ⟨ps.specs.quantity, 1, none,
             "Quantity must be a positive integer"⟩], "mild_steel_rate") := by
    unfold branchCheck
    rw [if_pos hty]
    rw [if_pos (Or.inl hmat)]
    rw [hmat]
    rfl
  unfold calculate_and_save
  rw [if_neg (by push_neg; exact ⟨hid, hrev⟩)]
  rw [hbr]
  dsimp only
  have hval : runValidations
      [⟨ps.specs.length, 50, some 3000,
        "Lay-Flat length must be between 50 and 3000 mm"⟩,
       ⟨ps.specs.width, 50, some 1500,
        "Lay-Flat width must be between 50 and 1500 mm"⟩,
       ⟨ps.specs.thickness, 1, some 3,
        "Thickness must be between 1.0 and 3.0 mm"⟩,
       ⟨ps.specs.quantity, 1, none,
        "Quantity must be a positive integer"⟩] = .ok () := by
    unfold runValidations
    rw [if_pos (by simp [okRange, hlen.1, hlen.2])]
    unfold runValidations
    rw [if_pos (by simp [okRange, hwid.1, hwid.2])]
    unfold runValidations
    rw [if_pos (by simp [okRange, hthk.1, hthk.2])]
    unfold runValidations
    rw [if_pos (by simp [okRange, hqty])]
    rfl
  rw [hval]
  rw [if_pos hty]
  rw [if_neg (not_not_intro hpid)]
  rw [if_neg hwc]
  rw [if_neg (not_not_intro hsub)]
  rw [if_pos hty, hsub]
  dsimp only [catalogueCostOf]
  rw [if_neg hrates]
  rw [if_pos hcost]

/-- C1 witness: the amended theorem applied to the concrete Mild Steel
part and the rate table lacking its material rate. -/
theorem C1_witness :
    calculate_cost (buildFullSpecs psMildSteel "mild_steel_rate" 0)
        ratesNoMildSteel = 0 ∧
    calculate_and_save psMildSteel ratesNoMildSteel [] [] =
      .error "Cost calculation failed, check inputs or rates" :=
  C1_missing_rate_aborts psMildSteel ratesNoMildSteel [] []
    rfl (by decide) (by decide) (by decide)
    (by decide) (by decide) (by decide) (by decide)
    (by decide) (by decide) rfl (by decide) rfl

/-! ### C2: the unit cost is returned unrounded -/

/-- A part consisting of one Cutting operation of length 1 mm, whose
accumulated cost is 0.125. -/
def pdEighth : PartData :=
  { part_type := some "Assembly", material := some "N/A",
    work_centres := [("Cutting", 1, "None")] }

/-- A rate table pricing cutting at 0.125 per mm. -/
def ratesEighth : RateTable := [("cutting_rate_per_mm", 1 / 8)]

/-- C2 counterexample: the accumulated cost of this part is 1/8 = 0.125,
whose 2-decimal half-up rounding is 0.13; `calculate_cost` returns the
exact 0.125, so the returned unit cost is not `round(cost, 2)`. -/
theorem C2_counterexample :
    calculate_cost pdEighth ratesEighth = 1 / 8 ∧
    spec_round2 (1 / 8) = 13 / 100 ∧
    calculate_cost pdEighth ratesEighth ≠ spec_round2 (1 / 8) := by
  have h1 : calculate_cost pdEighth ratesEighth = 1 / 8 := by
    rw [calculate_cost_skip_material pdEighth ratesEighth 0 0 0 0 1 rfl (by decide)]
    rw [tailCost_eq_sum pdEighth ratesEighth ((1 : ℤ) : ℚ) 0 0
      (by decide) (by decide)]
    show (0 : ℚ) + (keyRate ratesEighth "Cutting" "None" * 1 * ((1 : ℤ) : ℚ) + 0) +
        0 + 0 * ((1 : ℤ) : ℚ) = 1 / 8
    have hkr : keyRate ratesEighth "Cutting" "None" = 1 / 8 := rfl
    rw [hkr]
    norm_num
  have h2 : spec_round2 (1 / 8) = 13 / 100 := by
    unfold spec_round2
    norm_num
  refine ⟨h1, h2, ?_⟩
  rw [h1, h2]
  norm_num

/-- C2 (amended): a successful `calculate_cost` returns the accumulated
cost exactly — the material term plus the work-centre, fastener and
catalogue terms, each scaled by the part quantity — and no rounding step
of any kind is applied to the result. -/
theorem C2_no_rounding (pd : PartData) (rates : RateTable)
    (t l w c : ℚ) (qi : ℤ) (m : String) (mr : ℚ)
    (hconv : convertFields pd = .ok (t, l, w, qi, c))
    (hpt : pd.part_type = some "Single Part")
    (hm : pd.material = some m) (hna : m ≠ "N/A")
    (hmr : lookupRate rates (strLower m) = some mr)
    (hops : ∀ e ∈ pd.work_centres,
      ((wcRateKey e.1 e.2.2).bind (lookupRate rates)).isSome)
    (hfs : ∀ e ∈ pd.fastener_types_and_counts,
      (lookupRate rates (strLower e.1 ++ "_rate_per_unit")).isSome) :
    calculate_cost pd rates =
      mr * t * l * w * (qi : ℚ) +
        ((pd.work_centres.map fun e => keyRate rates e.1 e.2.2 * e.2.1 * (qi : ℚ)).sum) +
        ((pd.fastener_types_and_counts.map fun e =>
          fastenerRate rates e.1 * e.2 * (qi : ℚ)).sum) +
        c * (qi : ℚ) := by
  rw [calculate_cost_single pd rates t l w c qi m mr hconv hpt hm hna hmr]
  exact tailCost_eq_sum pd rates (qi : ℚ) c _ hops hfs

/-- A fully populated single part for evaluating the accumulation. -/
def pdSteelFull : PartData :=
  { part_type := some "Single Part", material := some "Steel",
    thickness := some (.num 2), length := some (.num 100),
    width := some (.num 50), quantity := some (.num 3),
    work_centres := [("Cutting", 10, "None")],
    catalogue_cost := some (.num 5),
    fastener_types_and_counts := [("Bolt", 2)] }

/-- Rates for `pdSteelFull`. -/
def ratesSteelFull : RateTable :=
  [("steel", 2), ("cutting_rate_per_mm", 1 / 2), ("bolt_rate_per_unit", 3)]

/-- C2 witness: the amended theorem evaluated on a concrete part; the sum
2*2*100*50*3 + (1/2)*10*3 + 3*2*3 + 5*3 = 60048 is returned exactly. -/
theorem C2_witness : calculate_cost pdSteelFull ratesSteelFull = 60048 := by
  rw [C2_no_rounding pdSteelFull ratesSteelFull 2 100 50 5 3 "Steel" 2
    rfl rfl rfl (by decide) rfl (by decide) (by decide)]
  show (2 : ℚ) * 2 * 100 * 50 * ((3 : ℤ) : ℚ) +
      (keyRate ratesSteelFull "Cutting" "None" * 10 * ((3 : ℤ) : ℚ) + 0) +
      (fastenerRate ratesSteelFull "Bolt" * 2 * ((3 : ℤ) : ℚ) + 0) +
      5 * ((3 : ℤ) : ℚ) = 60048
  have h1 : keyRate ratesSteelFull "Cutting" "None" = 1 / 2 := rfl
  have h2 : fastenerRate ratesSteelFull "Bolt" = 3 := rfl
  rw [h1, h2]
  norm_num

/-! ### C3: material cost contribution -/

/-- A valid single part of quantity 2 with no operations, fasteners or
catalogue items: its whole cost is the material contribution. -/
def pdQuantityTwo : PartData :=
  { part_type := some "Single Part", material := some "steel",
    thickness := some (.num 1), length := some (.num 100),
    width := some (.num 50), quantity := some (.num 2),
    catalogue_cost := some (.num 0) }

/-- A rate table pricing steel at 1. -/
def ratesUnitSteel : RateTable := [("steel", 1)]

/-- C3 counterexample: for this part the entire cost is the material
contribution, which the claim says equals area × thickness × rate =
100·50·1·1 = 5000; the code also multiplies the part quantity 2 into the
material term and returns 10000. -/
theorem C3_counterexample :
    calculate_cost pdQuantityTwo ratesUnitSteel = 10000 ∧
    calculate_cost pdQuantityTwo ratesUnitSteel ≠ (100 * 50) * 1 * 1 := by
  have h1 : calculate_cost pdQuantityTwo ratesUnitSteel = 10000 := by
    rw [calculate_cost_single pdQuantityTwo ratesUnitSteel 1 100 50 0 2 "steel" 1
      rfl rfl rfl (by decide) rfl]
    rw [tailCost_eq_sum pdQuantityTwo ratesUnitSteel ((2 : ℤ) : ℚ) 0 _
      (by decide) (by decide)]
    show (1 : ℚ) * 1 * 100 * 50 * ((2 : ℤ) : ℚ) + 0 + 0 + 0 * ((2 : ℤ) : ℚ) = 10000
    norm_num
  refine ⟨h1, ?_⟩
  rw [h1]
  norm_num

/-- C3 (amended): the material contribution to the cost of a single part —
the difference between the cost and the cost of the same part with the
material zeroed out to "N/A" — is rate × thickness × length × width ×
quantity, the quantity being multiplied in as well. -/
theorem C3_material_contribution (pd : PartData) (rates : RateTable)
    (t l w c : ℚ) (qi : ℤ) (m : String) (mr : ℚ)
    (hconv : convertFields pd = .ok (t, l, w, qi, c))
    (hpt : pd.part_type = some "Single Part")
    (hm : pd.material = some m) (hna : m ≠ "N/A")
    (hmr : lookupRate rates (strLower m) = some mr)
    (hops : ∀ e ∈ pd.work_centres,
      ((wcRateKey e.1 e.2.2).bind (lookupRate rates)).isSome)
    (hfs : ∀ e ∈ pd.fastener_types_and_counts,
      (lookupRate rates (strLower e.1 ++ "_rate_per_unit")).isSome) :
    calculate_cost pd rates =
      mr * t * l * w * (qi : ℚ) +
        calculate_cost { pd with material := some "N/A" } rates := by
  rw [calculate_cost_single pd rates t l w c qi m mr hconv hpt hm hna hmr]
  rw [calculate_cost_skip_material { pd with material := some "N/A" } rates
    t l w c qi hconv (by simp)]
  rw [tailCost_eq_sum pd rates (qi : ℚ) c _ hops hfs]
  rw [tailCost_eq_sum { pd with material := some "N/A" } rates (qi : ℚ) c 0 hops hfs]
  rw [show ({ pd with material := some "N/A" } : PartData).work_centres =
    pd.work_centres from rfl]
  rw [show ({ pd with material := some "N/A" } : PartData).fastener_types_and_counts =
    pd.fastener_types_and_counts from rfl]
  ring

/-- C3 witness: on the quantity-2 part, the amended contribution formula
evaluates to 1·1·100·50·2 = 10000 plus the zero remaining cost. -/
theorem C3_witness :
    calculate_cost pdQuantityTwo ratesUnitSteel =
      1 * 1 * 100 * 50 * ((2 : ℤ) : ℚ) +
        calculate_cost { pdQuantityTwo with material := some "N/A" }
          ratesUnitSteel :=
  C3_material_contribution pdQuantityTwo ratesUnitSteel 1 100 50 0 2 "steel" 1
    rfl rfl rfl (by decide) rfl (by decide) (by decide)

/-! ### C4: welding rate key derivation -/

/-- A bare part carrying a single Welding operation with sub-option `s`
and weld length `q`. -/
def pdWeld (s : String) (q : ℚ) : PartData :=
  { part_type := some "Assembly", material := some "N/A",
    work_centres := [("Welding", q, s)] }

/-- Rates carrying a dedicated spot key alongside the MIG and TIG keys. -/
def ratesWeld : RateTable :=
  [("spot_welding_rate_per_mm", 5), ("mig_welding_rate_per_mm", 3),
   ("tig_welding_rate_per_mm", 7)]

/-- C4 counterexample: a Welding operation with sub-option "Spot" is not
priced under "spot_welding_rate_per_mm" (rate 5, which would give 50) but
under the TIG key (rate 7, giving 70); and a "None" sub-option reaching
`calculate_cost` is likewise priced under the TIG key — returned normally,
not rejected as a validation error. -/
theorem C4_counterexample :
    calculate_cost (pdWeld "Spot" 10) ratesWeld = 70 ∧
    calculate_cost (pdWeld "Spot" 10) ratesWeld ≠ 5 * 10 ∧
    calculate_cost_checked (pdWeld "None" 10) ratesWeld =
      .ok (calculate_cost (pdWeld "None" 10) ratesWeld) ∧
    calculate_cost (pdWeld "None" 10) ratesWeld = 70 := by
  have heval : ∀ s : String, s ≠ "MIG" →
      calculate_cost (pdWeld s 10) ratesWeld = 70 := by
    intro s hs
    rw [calculate_cost_skip_material (pdWeld s 10) ratesWeld 0 0 0 0 1 rfl
      (fun h => absurd h.1
        (by decide : ¬ ((some "Assembly" : Option String) = some "Single Part")))]
    have hk : wcRateKey "Welding" s =
        some (if s = "MIG" then "mig_welding_rate_per_mm"
              else "tig_welding_rate_per_mm") := rfl
    have hops : ∀ e ∈ (pdWeld s 10).work_centres,
        ((wcRateKey e.1 e.2.2).bind (lookupRate ratesWeld)).isSome := by
      intro e he
      rw [List.mem_singleton.mp he]
      rw [hk]
      simp [hs]
      rfl
    rw [tailCost_eq_sum (pdWeld s 10) ratesWeld ((1 : ℤ) : ℚ) 0 0 hops
      (fun e he => absurd he (List.not_mem_nil e))]
    show (0 : ℚ) + (keyRate ratesWeld "Welding" s * 10 * ((1 : ℤ) : ℚ) + 0) +
        0 + 0 * ((1 : ℤ) : ℚ) = 70
    have hkr : keyRate ratesWeld "Welding" s = 7 := by
      unfold keyRate
      rw [hk, if_neg hs]
      rfl
    rw [hkr]
    norm_num
  have h1 := heval "Spot" (by decide)
  have h2 := heval "None" (by decide)
  refine ⟨h1, by rw [h1]; norm_num, ?_, h2⟩
  rw [checked_skip_material (pdWeld "None" 10) ratesWeld 0 0 0 0 1 rfl
    (by decide)]
  rw [calculate_cost_skip_material (pdWeld "None" 10) ratesWeld 0 0 0 0 1 rfl
    (by decide)]

/-- C4 (amended): `calculate_cost` prices a Welding operation with
sub-option "MIG" under "mig_welding_rate_per_mm" and every other
sub-option — "TIG", but equally "Spot", "" or "None" — under
"tig_welding_rate_per_mm"; it is the GUI work-centre collection step, not
the calculator, that rejects a "None" weld sub-option before pricing. -/
theorem C4_welding_key (s : String) (q : ℚ) (rates : RateTable) (rm rt : ℚ)
    (i : Nat) (rest : List (String × ℚ × String))
    (hm : lookupRate rates "mig_welding_rate_per_mm" = some rm)
    (ht : lookupRate rates "tig_welding_rate_per_mm" = some rt)
    (hq : q ≠ 0) :
    calculate_cost (pdWeld s q) rates = (if s = "MIG" then rm else rt) * q ∧
    collectWorkCentres i (("Welding", q, "None") :: rest) =
      .error ("Weld type must be selected for Welding in Operation " ++
        toString ((i + 1) * 10)) := by
  constructor
  · rw [calculate_cost_skip_material (pdWeld s q) rates 0 0 0 0 1 rfl
      (fun h => absurd h.1
        (by decide : ¬ ((some "Assembly" : Option String) = some "Single Part")))]
    have hk : wcRateKey "Welding" s =
        some (if s = "MIG" then "mig_welding_rate_per_mm"
              else "tig_welding_rate_per_mm") := rfl
    have hops : ∀ e ∈ (pdWeld s q).work_centres,
        ((wcRateKey e.1 e.2.2).bind (lookupRate rates)).isSome := by
      intro e he
      rw [List.mem_singleton.mp he]
      rw [hk]
      by_cases hs : s = "MIG"
      · simp [hs, hm]
      · simp [hs, ht]
    rw [tailCost_eq_sum (pdWeld s q) rates ((1 : ℤ) : ℚ) 0 0 hops
      (fun e he => absurd he (List.not_mem_nil e))]
    show (0 : ℚ) + (keyRate rates "Welding" s * q * ((1 : ℤ) : ℚ) + 0) +
        0 + 0 * ((1 : ℤ) : ℚ) = (if s = "MIG" then rm else rt) * q
    have hkr : keyRate rates "Welding" s = if s = "MIG" then rm else rt := by
      unfold keyRate
      rw [hk]
      by_cases hs : s = "MIG"
      · simp [hs, hm]
      · simp [hs, ht]
    rw [hkr]
    push_cast
    ring
  · unfold collectWorkCentres
    rw [if_neg (by decide : ¬ ("Welding" : String) = "")]
    rw [if_neg hq]
    rw [if_pos ⟨rfl, rfl⟩]

/-- C4 witness: the amended theorem at sub-option "TIG", weld length 100,
the three-key rate table and collection row 0. -/
theorem C4_witness :
    calculate_cost (pdWeld "TIG" 100) ratesWeld =
      (if "TIG" = "MIG" then (3 : ℚ) else 7) * 100 ∧
    collectWorkCentres 0 [("Welding", 100, "None")] =
      .error "Weld type must be selected for Welding in Operation 10" :=
  C4_welding_key "TIG" 100 ratesWeld 3 7 0 [] rfl rfl (by norm_num)

/-! ### C5: unknown operation names -/

/-- A part whose single operation name "Milling" is outside the
enumeration. -/
def pdMilling : PartData :=
  { part_type := some "Assembly", material := some "N/A",
    work_centres := [("Milling", 5, "None")] }

/-- A rate table that even carries a plausible milling rate. -/
def ratesMilling : RateTable := [("milling_rate_per_mm", 4)]

/-- C5 counterexample: on an unknown operation name the checked body of
`calculate_cost` returns normally with the numeric 0 — no UnknownOperation
error exists, and the present milling rate is never consulted. -/
theorem C5_counterexample :
    calculate_cost_checked pdMilling ratesMilling = .ok 0 ∧
    calculate_cost pdMilling ratesMilling = 0 := by
  constructor <;> rfl

/-- C5 (amended): whenever any work-centre row carries an operation name
outside the ten-name enumeration, `calculate_cost` returns the sentinel
0.0 for every rate table, instead of failing with an UnknownOperation
error. -/
theorem C5_unknown_op_returns_zero (pd : PartData) (rates : RateTable)
    (wc : String) (q : ℚ) (sub : String)
    (hmem : (wc, q, sub) ∈ pd.work_centres)
    (hunknown : wc ∉ opNames) :
    calculate_cost pd rates = 0 := by
  have hkey := wcRateKey_eq_none wc sub hunknown
  unfold calculate_cost calculate_cost_checked
  cases hconv : convertFields pd with
  | error e => rfl
  | ok tup =>
    obtain ⟨t, l, w, qi, c⟩ := tup
    dsimp only
    by_cases hcond : pd.part_type = some "Single Part" ∧ pd.material ≠ some "N/A"
    · rw [if_pos hcond]
      cases hmm : pd.material with
      | none => rfl
      | some m =>
        dsimp only
        cases hr : lookupRate rates (strLower m) with
        | none => rfl
        | some r =>
          dsimp only
          show tailCost pd rates _ _ _ = 0
          unfold tailCost
          rw [workCentresCost_eq_none rates _ pd.work_centres wc q sub hmem hkey]
    · rw [if_neg hcond]
      show tailCost pd rates _ _ _ = 0
      unfold tailCost
      rw [workCentresCost_eq_none rates _ pd.work_centres wc q sub hmem hkey]

/-- C5 witness: the amended theorem applied to the Milling part. -/
theorem C5_witness : calculate_cost pdMilling ratesMilling = 0 :=
  C5_unknown_op_returns_zero pdMilling ratesMilling "Milling" 5 "None"
    (by decide) (by decide)

/-! ### C6: dimension range validation -/

theorem okRange_some_iff (value lo hi : ℚ) (msg : String) :
    okRange ⟨value, lo, some hi, msg⟩ = true ↔ lo ≤ value ∧ value ≤ hi := by
  simp [okRange]

/-- C6: an out-of-range dimension on a single part makes
`calculate_and_save` raise the per-field message of the first failing
check (length, then width, then thickness), whatever the rate table,
saved parts and catalogue — validation aborts before any rate lookup. -/
theorem C6_range_validation (ps : PartSpecs)
    (hty : ps.part_type = "Single Part")
    (hid : ps.part_id ≠ "") (hrev : ps.revision ≠ "")
    (hmat : strLower ps.specs.material = "mild steel" ∨
      strLower ps.specs.material = "aluminium" ∨
      strLower ps.specs.material = "stainless steel")
    (hout : ¬ (50 ≤ ps.specs.length ∧ ps.specs.length ≤ 3000) ∨
      ¬ (50 ≤ ps.specs.width ∧ ps.specs.width ≤ 1500) ∨
      ¬ (1 ≤ ps.specs.thickness ∧ ps.specs.thickness ≤ 3)) :
    ∀ (rates : RateTable) (existing : List String)
      (catalogue : List (String × String × ℚ)),
      calculate_and_save ps rates existing catalogue =
        .error (if ¬ (50 ≤ ps.specs.length ∧ ps.specs.length ≤ 3000) then
            "Lay-Flat length must be between 50 and 3000 mm"
          else if ¬ (50 ≤ ps.specs.width ∧ ps.specs.width ≤ 1500) then
            "Lay-Flat width must be between 50 and 1500 mm"
          else "Thickness must be between 1.0 and 3.0 mm") := by
  intro rates existing catalogue
  unfold calculate_and_save
  rw [if_neg (by push_neg; exact ⟨hid, hrev⟩)]
  have hbr : branchCheck ps existing =
      .ok ([⟨ps.specs.length, 50, some 3000,
             "Lay-Flat length must be between 50 and 3000 mm"⟩,
            ⟨ps.specs.width, 50, some 1500,
             "Lay-Flat width must be between 50 and 1500 mm"⟩,
            ⟨ps.specs.thickness, 1, some 3,
             "Thickness must be between 1.0 and 3.0 mm"⟩,
            ⟨ps.specs.quantity, 1, none,
             "Quantity must be a positive integer"⟩],
           materialForRates (strLower ps.specs.material)) := by
    unfold branchCheck
    rw [if_pos hty, if_pos hmat]
  rw [hbr]
  dsimp only
  by_cases hL : 50 ≤ ps.specs.length ∧ ps.specs.length ≤ 3000
  · by_cases hW : 50 ≤ ps.specs.width ∧ ps.specs.width ≤ 1500
    · have hT : ¬ (1 ≤ ps.specs.thickness ∧ ps.specs.thickness ≤ 3) := by
        rcases hout with h | h | h
        · exact absurd hL h
        · exact absurd hW h
        · exact h
      unfold runValidations
      rw [if_pos ((okRange_some_iff _ _ _ _).mpr hL)]
      unfold runValidations
      rw [if_pos ((okRange_some_iff _ _ _ _).mpr hW)]
      unfold runValidations
      rw [if_neg (fun hc => hT ((okRange_some_iff _ _ _ _).mp hc))]
      rw [if_neg (not_not_intro hL), if_neg (not_not_intro hW)]
    · unfold runValidations
      rw [if_pos ((okRange_some_iff _ _ _ _).mpr hL)]
      unfold runValidations
      rw [if_neg (fun hc => hW ((okRange_some_iff _ _ _ _).mp hc))]
      rw [if_neg (not_not_intro hL), if_pos hW]
  · unfold runValidations
    rw [if_neg (fun hc => hL ((okRange_some_iff _ _ _ _).mp hc))]
    rw [if_pos hL]

/-- A single part whose thickness 5 mm is outside the 1.0-3.0 range. -/
def psBadThickness : PartSpecs :=
  { part_type := "Single Part", part_id := "PART-12345", revision := "A",
    specs := { material := "Mild Steel", thickness := 5, length := 1000,
               width := 500, quantity := 1 },
    work_centres := [("Cutting", 100, "None")] }

/-- C6 witness: the out-of-range thickness aborts with its per-field
message regardless of the rate table. -/
theorem C6_witness :
    calculate_and_save psBadThickness [("cutting_rate_per_mm", 1)] [] [] =
      .error "Thickness must be between 1.0 and 3.0 mm" :=
  C6_range_validation psBadThickness rfl (by decide) (by decide)
    (Or.inl (by decide)) (Or.inr (Or.inr (by decide)))
    [("cutting_rate_per_mm", 1)] [] []

/-! ### C7: assembly sub-part validation -/

theorem checkSubParts_first_missing (existing : List String) :
    ∀ (pre : List SubPartEntry) (x : String) (q : ℚ)
      (rest : List SubPartEntry),
      (∀ e ∈ pre, ∃ y p, e = SubPartEntry.pair y p ∧ y ∈ existing) →
      x ∉ existing →
      checkSubParts existing (pre ++ SubPartEntry.pair x q :: rest) =
        .error ("Sub-part " ++ x ++ " does not exist in the system")
  | [], x, q, rest, _, hx => by
    simp only [List.nil_append, checkSubParts, unpack2]
    rw [if_neg hx]
  | e :: pre, x, q, rest, hpre, hx => by
    obtain ⟨y, p, rfl, hy⟩ := hpre e (List.mem_cons_self _ _)
    simp only [List.cons_append, checkSubParts, unpack2]
    rw [if_pos hy]
    exact checkSubParts_first_missing existing pre x q rest
      (fun e he => hpre e (List.mem_cons_of_mem _ he)) hx

/-- C7: an assembly with no sub-parts is rejected with a validation error,
and an assembly whose sub-part list reaches an id absent from the saved
parts fails with an error naming that sub-part; in both cases the failure
holds for every rate table and catalogue, so no cost is produced. -/
theorem C7_assembly_validation (ps : PartSpecs)
    (hty : ps.part_type ≠ "Single Part")
    (hid : ps.part_id ≠ "") (hrev : ps.revision ≠ "") :
    (ps.specs.sub_parts = [] →
      ∀ (rates : RateTable) (existing : List String)
        (catalogue : List (String × String × ℚ)),
        calculate_and_save ps rates existing catalogue =
          .error "At least one sub-part must be selected for an assembly") ∧
    (∀ (existing : List String) (pre : List SubPartEntry) (x : String)
        (q : ℚ) (rest : List SubPartEntry),
      ps.specs.sub_parts = pre ++ SubPartEntry.pair x q :: rest →
      (∀ e ∈ pre, ∃ y p, e = SubPartEntry.pair y p ∧ y ∈ existing) →
      x ∉ existing →
      ∀ (rates : RateTable) (catalogue : List (String × String × ℚ)),
        calculate_and_save ps rates existing catalogue =
          .error ("Sub-part " ++ x ++ " does not exist in the system")) := by
  constructor
  · intro hsub rates existing catalogue
    unfold calculate_and_save
    rw [if_neg (by push_neg; exact ⟨hid, hrev⟩)]
    have hbr : branchCheck ps existing =
        .error "At least one sub-part must be selected for an assembly" := by
      unfold branchCheck
      rw [if_neg hty, if_pos hsub]
    rw [hbr]
  · intro existing pre x q rest hsplit hpre hx rates catalogue
    unfold calculate_and_save
    rw [if_neg (by push_neg; exact ⟨hid, hrev⟩)]
    have hbr : branchCheck ps existing =
        .error ("Sub-part " ++ x ++ " does not exist in the system") := by
      unfold branchCheck
      rw [if_neg hty]
      rw [if_neg (by rw [hsplit]; simp)]
      rw [hsplit, checkSubParts_first_missing existing pre x q rest hpre hx]
    rw [hbr]

/-- An assembly specification with no sub-parts selected. -/
def psAssemblyNoSubs : PartSpecs :=
  { part_type := "Assembly", part_id := "ASSY-12345", revision := "A",
    specs := { material := "N/A", thickness := 0, length := 0, width := 0,
               quantity := 1 },
    work_centres := [("Assembly", 2, "None")] }

/-- The same assembly referencing a sub-part that is not registered. -/
def psAssemblyMissing : PartSpecs :=
  { psAssemblyNoSubs with
    specs := { psAssemblyNoSubs.specs with
      sub_parts := [.pair "PART-11111" 1] } }

/-- C7 witness: the two assembly failure modes at concrete inputs. -/
theorem C7_witness :
    calculate_and_save psAssemblyNoSubs
        [("assembly_rate_per_component", 5)] [] [] =
      .error "At least one sub-part must be selected for an assembly" ∧
    calculate_and_save psAssemblyMissing
        [("assembly_rate_per_component", 5)] [] [] =
      .error ("Sub-part " ++ "PART-11111" ++ " does not exist in the system") := by
  constructor
  · exact (C7_assembly_validation psAssemblyNoSubs (by decide) (by decide)
      (by decide)).1 rfl _ _ _
  · exact (C7_assembly_validation psAssemblyMissing (by decide) (by decide)
      (by decide)).2 [] [] "PART-11111" 1 [] rfl
      (fun e he => absurd he (List.not_mem_nil e))
      (List.not_mem_nil _) _ _

/-! ### C8: quote aggregation -/

theorem sumParts_eq_sum (registry : List (String × ℚ)) :
    ∀ parts : List (String × ℚ),
      (∀ p ∈ parts, (List.lookup p.1 registry).isSome) →
      sumParts registry parts =
        .ok ((parts.map fun p => (List.lookup p.1 registry).getD 0 * p.2).sum)
  | [], _ => by simp [sumParts]
  | (pid, qty) :: rest, h => by
    have h1 := h (pid, qty) (List.mem_cons_self _ _)
    simp only [sumParts]
    cases hr : List.lookup pid registry with
    | none => rw [hr] at h1; simp at h1
    | some uc =>
      rw [sumParts_eq_sum registry rest
        (fun p hp => h p (List.mem_cons_of_mem _ hp))]
      simp [hr]

/-- C8 counterexample: a quote over one part of unit cost 10.001 and
quantity 1 at margin 0 totals exactly 10.001; the claimed rounded total
round(10.001, 2) = 10.00 differs, so the quote total is not rounded. -/
theorem C8_counterexample :
    generate_quote "Acme" 0 [("PART-AAAAA", 1)]
        [("PART-AAAAA", 10001 / 1000)] = .ok (10001 / 1000) ∧
    spec_round2 (10001 / 1000) = 10 ∧
    (10001 / 1000 : ℚ) ≠ 10 := by
  refine ⟨?_, ?_, by norm_num⟩
  · unfold generate_quote
    rw [if_neg (by decide), if_neg (by norm_num), if_neg (by decide)]
    rw [sumParts_eq_sum [("PART-AAAAA", 10001 / 1000)] [("PART-AAAAA", 1)]
      (by decide)]
    show Except.ok (((10001 : ℚ) / 1000 * 1 + 0) * (1 + 0 / 100)) =
      .ok (10001 / 1000)
    have harith : ((10001 : ℚ) / 1000 * 1 + 0) * (1 + 0 / 100) =
        10001 / 1000 := by norm_num
    rw [harith]
  · unfold spec_round2
    norm_num

/-- C8 (amended): for a non-empty customer name, margin at least 0 and a
non-empty part list whose costs are all registered, the quote total is
exactly subtotal * (1 + margin / 100), with no rounding applied; in
particular the Acme example (10 × 2 at 20 %) totals exactly 24. -/
theorem C8_quote_total (customer_name : String) (profit_margin : ℚ)
    (added_parts : List (String × ℚ)) (registry : List (String × ℚ))
    (hname : customer_name ≠ "") (hmargin : 0 ≤ profit_margin)
    (hparts : added_parts ≠ [])
    (hreg : ∀ p ∈ added_parts, (List.lookup p.1 registry).isSome) :
    generate_quote customer_name profit_margin added_parts registry =
      .ok (((added_parts.map fun p =>
          (List.lookup p.1 registry).getD 0 * p.2).sum) *
        (1 + profit_margin / 100)) ∧
    generate_quote "Acme" 20 [("PART-11111", 2)] [("PART-11111", 10)] =
      .ok 24 := by
  constructor
  · unfold generate_quote
    rw [if_neg hname, if_neg (not_lt.mpr hmargin), if_neg hparts]
    rw [sumParts_eq_sum registry added_parts hreg]
  · unfold generate_quote
    rw [if_neg (by decide), if_neg (by norm_num), if_neg (by decide)]
    rw [sumParts_eq_sum [("PART-11111", 10)] [("PART-11111", 2)] (by decide)]
    show Except.ok (((10 : ℚ) * 2 + 0) * (1 + 20 / 100)) = .ok 24
    have harith : ((10 : ℚ) * 2 + 0) * (1 + 20 / 100) = 24 := by norm_num
    rw [harith]

/-- C8 witness: the amended theorem instantiated on the Acme example. -/
theorem C8_witness :
    generate_quote "Acme" 20 [("PART-11111", 2)] [("PART-11111", 10)] =
      .ok 24 :=
  (C8_quote_total "Acme" 20 [("PART-11111", 2)] [("PART-11111", 10)]
    (by decide) (by norm_num) (by decide) (by decide)).2

/-! ### C9: monotonicity in an operation quantity -/

theorem convertFields_ok_inv (pd : PartData) (t l w c : ℚ) (qi : ℤ)
    (h : convertFields pd = .ok (t, l, w, qi, c)) :
    pyFloat pd.thickness 0 = .ok t ∧ pyFloat pd.length 0 = .ok l ∧
    pyFloat pd.width 0 = .ok w ∧ pyInt pd.quantity 1 = .ok qi ∧
    pyFloat pd.catalogue_cost 0 = .ok c := by
  unfold convertFields at h
  cases k1 : pyFloat pd.thickness 0 with
  | error e => rw [k1] at h; simp at h
  | ok tv =>
    rw [k1] at h
    cases k2 : pyFloat pd.length 0 with
    | error e => rw [k2] at h; simp at h
    | ok lv =>
      rw [k2] at h
      cases k3 : pyFloat pd.width 0 with
      | error e => rw [k3] at h; simp at h
      | ok wv =>
        rw [k3] at h
        cases k4 : pyInt pd.quantity 1 with
        | error e => rw [k4] at h; simp at h
        | ok qv =>
          rw [k4] at h
          cases k5 : pyFloat pd.catalogue_cost 0 with
          | error e => rw [k5] at h; simp at h
          | ok cv =>
            rw [k5] at h
            simp only [Except.ok.injEq, Prod.mk.injEq] at h
            obtain ⟨rfl, rfl, rfl, rfl, rfl⟩ := h
            exact ⟨rfl, rfl, rfl, rfl, rfl⟩

/-- A valid single part carrying one Cutting operation of length `q`. -/
def pdC9 (q : ℚ) : PartData :=
  { part_type := some "Single Part", material := some "steel",
    thickness := some (.num 1), length := some (.num 100),
    width := some (.num 50), quantity := some (.num 1),
    work_centres := [("Cutting", q, "None")],
    catalogue_cost := some (.num 0) }

/-- A rate table with a negative cutting rate. -/
def ratesNegCut : RateTable := [("steel", 1), ("cutting_rate_per_mm", -1)]

/-- C9 counterexample: with a negative cutting rate in the table,
increasing the cutting quantity of an otherwise valid single part from 1
to 2 strictly decreases the cost, from 4999 to 4998. -/
theorem C9_counterexample :
    calculate_cost (pdC9 1) ratesNegCut = 4999 ∧
    calculate_cost (pdC9 2) ratesNegCut = 4998 ∧
    calculate_cost (pdC9 2) ratesNegCut <
      calculate_cost (pdC9 1) ratesNegCut := by
  have heval : ∀ q : ℚ, calculate_cost (pdC9 q) ratesNegCut = 5000 - q := by
    intro q
    rw [calculate_cost_single (pdC9 q) ratesNegCut 1 100 50 0 1 "steel" 1
      rfl rfl rfl (by decide) rfl]
    rw [tailCost_eq_sum (pdC9 q) ratesNegCut ((1 : ℤ) : ℚ) 0 _
      (by intro e he; rw [List.mem_singleton.mp he]; rfl)
      (fun e he => absurd he (List.not_mem_nil e))]
    show (1 : ℚ) * 1 * 100 * 50 * ((1 : ℤ) : ℚ) +
        (keyRate ratesNegCut "Cutting" "None" * q * ((1 : ℤ) : ℚ) + 0) + 0 +
        0 * ((1 : ℤ) : ℚ) = 5000 - q
    have hkr : keyRate ratesNegCut "Cutting" "None" = -1 := rfl
    rw [hkr]
    push_cast
    ring
  refine ⟨?_, ?_, ?_⟩
  · rw [heval 1]; norm_num
  · rw [heval 2]; norm_num
  · rw [heval 1, heval 2]; norm_num

/-- C9 (amended): when every rate in the table is non-negative and the
part quantity converts to a non-negative integer, increasing one
operation quantity while holding every other field fixed never decreases
the cost returned by `calculate_cost`. -/
theorem C9_quantity_monotone (pd : PartData) (rates : RateTable)
    (L1 L2 : List (String × ℚ × String)) (wc sub : String) (q q₂ : ℚ)
    (hq : q ≤ q₂)
    (hwc : pd.work_centres = L1 ++ (wc, q, sub) :: L2)
    (hrates : ∀ p ∈ rates, 0 ≤ p.2)
    (hquant : ∀ n, pyInt pd.quantity 1 = .ok n → (0 : ℤ) ≤ n) :
    calculate_cost pd rates ≤
      calculate_cost
        { pd with work_centres := L1 ++ (wc, q₂, sub) :: L2 } rates := by
  unfold calculate_cost calculate_cost_checked
  rw [show convertFields { pd with work_centres := L1 ++ (wc, q₂, sub) :: L2 } =
    convertFields pd from rfl]
  cases hcv : convertFields pd with
  | error e => exact le_refl 0
  | ok tup =>
    obtain ⟨t, l, w, qi, c⟩ := tup
    dsimp only
    have hQ : (0 : ℚ) ≤ ((qi : ℤ) : ℚ) := by
      have hq0 := hquant qi (convertFields_ok_inv pd t l w c qi hcv).2.2.2.1
      exact_mod_cast hq0
    have hmono := workCentresCost_mono rates ((qi : ℤ) : ℚ) hQ hrates
      wc sub hq L1 L2
    have hle : OptLe (workCentresCost rates ((qi : ℤ) : ℚ) pd.work_centres)
        (workCentresCost rates ((qi : ℤ) : ℚ)
          ({ pd with work_centres := L1 ++ (wc, q₂, sub) :: L2 } :
            PartData).work_centres) := by
      rw [hwc]
      exact hmono
    rw [show ({ pd with work_centres := L1 ++ (wc, q₂, sub) :: L2 } :
      PartData).part_type = pd.part_type from rfl]
    rw [show ({ pd with work_centres := L1 ++ (wc, q₂, sub) :: L2 } :
      PartData).material = pd.material from rfl]
    by_cases hcond : pd.part_type = some "Single Part" ∧
        pd.material ≠ some "N/A"
    · rw [if_pos hcond, if_pos hcond]
      cases hmm : pd.material with
      | none => exact le_refl 0
      | some m =>
        dsimp only
        cases hr : lookupRate rates (strLower m) with
        | none => exact le_refl 0
        | some r =>
          dsimp only
          show tailCost pd rates _ _ _ ≤ tailCost _ rates _ _ _
          exact tailCost_le pd _ rates ((qi : ℤ) : ℚ) c
            (r * t * l * w * ((qi : ℤ) : ℚ)) rfl hle
    · rw [if_neg hcond, if_neg hcond]
      show tailCost pd rates _ _ _ ≤ tailCost _ rates _ _ _
      exact tailCost_le pd _ rates ((qi : ℤ) : ℚ) c 0 rfl hle

/-- A rate table with non-negative steel and cutting rates. -/
def ratesPosCut : RateTable := [("steel", 1), ("cutting_rate_per_mm", 1)]

/-- C9 witness: the amended monotonicity applied to the concrete part,
raising the cutting quantity from 1 to 2 over non-negative rates. -/
theorem C9_witness :
    calculate_cost (pdC9 1) ratesPosCut ≤
      calculate_cost
        { pdC9 1 with work_centres := [] ++ ("Cutting", 2, "None") :: [] }
        ratesPosCut :=
  C9_quantity_monotone (pdC9 1) ratesPosCut [] [] "Cutting" "None" 1 2
    (by norm_num) rfl (by decide)
    (by
      intro n hn
      have h1 : (Except.ok 1 : Except PyErr ℤ) = .ok n := hn
      injection h1 with h2
      omega)

/-! ### C10: totality of calculate_cost and the 0.0 sentinel -/

/-- C10: `calculate_cost` is total — whenever its checked body raises, the
public result is the numeric 0.0 rather than a propagated error, and every
conversion failure (non-numeric dimension, quantity or catalogue cost) or
missing material on a single part lands on that same 0.0 — so 0.0 covers
both "zero cost" and "computation failed". -/
theorem C10_total_returns_zero (pd : PartData) (rates : RateTable) :
    (∀ e, calculate_cost_checked pd rates = .error e →
      calculate_cost pd rates = 0) ∧
    ((pd.thickness = some .nonNumeric ∨ pd.length = some .nonNumeric ∨
      pd.width = some .nonNumeric ∨ pd.quantity = some .nonNumeric ∨
      pd.catalogue_cost = some .nonNumeric ∨
      (pd.part_type = some "Single Part" ∧ pd.material = none)) →
      calculate_cost pd rates = 0) := by
  have hzero : ∀ e, calculate_cost_checked pd rates = .error e →
      calculate_cost pd rates = 0 := by
    intro e h
    unfold calculate_cost
    rw [h]
  refine ⟨hzero, ?_⟩
  intro hbad
  unfold calculate_cost calculate_cost_checked
  cases hcv : convertFields pd with
  | error e => rfl
  | ok tup =>
    obtain ⟨t, l, w, qi, c⟩ := tup
    obtain ⟨h1, h2, h3, h4, h5⟩ := convertFields_ok_inv pd t l w c qi hcv
    dsimp only
    rcases hbad with hb | hb | hb | hb | hb | ⟨hpt, hmat⟩
    · rw [hb] at h1; exact absurd h1 (by simp [pyFloat])
    · rw [hb] at h2; exact absurd h2 (by simp [pyFloat])
    · rw [hb] at h3; exact absurd h3 (by simp [pyFloat])
    · rw [hb] at h4; exact absurd h4 (by simp [pyInt])
    · rw [hb] at h5; exact absurd h5 (by simp [pyFloat])
    · rw [if_pos ⟨hpt, by rw [hmat]; simp⟩]
      rw [hmat]

/-- C10 witness: a part whose thickness field holds a non-numeric value
makes the body raise, and the public result is the numeric 0. -/
theorem C10_witness :
    calculate_cost { thickness := some PyNum.nonNumeric } [] = 0 :=
  (C10_total_returns_zero { thickness := some PyNum.nonNumeric } []).2
    (Or.inl rfl)

end SheetMetal
